import Mathlib

/-!
Shallow embedding of the static lighting build orchestrator of
Engine/Source/Editor/UnrealEd/Private/StaticLightingSystem/StaticLightingSystem.cpp.

The embedding models, from the source:
  - the build stage state machine of FStaticLightingSystem and its manager
    (UpdateLightingBuild, CancelLightingBuild, CreateStaticLightingSystem,
    InitiateLightmassProcessor, FailLightingBuild, CanAutoApplyLighting);
  - the gather phase (GatherStaticLightingInfo, AddPrimitiveStaticLightingInfo,
    both AddBSPStaticLightingInfo overloads) as folds over explicit records;
  - the deterministic GUID assignment, on both the sorted path
    (BeginLightmassProcess after the texel sort) and the unsorted gather paths;
  - the visibility id assignment and the startup reset of all VisibilityId
    fields in BeginLightmassProcess.

External collaborator results (LightmassProcessor results, editor flags,
GetStaticLightingInfo query outcomes) are inputs to the modelled functions.
Side effects on the notification surface and the remote job client are
modelled as an explicit event list.
-/

/-- Sentinel used by Unreal for an invalid index, in particular the reset value
of UPrimitiveComponent.VisibilityId. -/
def INDEX_NONE : Int := -1

/-- Build stages of FStaticLightingSystem, as written and compared by the cpp
(CurrentBuildStage). -/
inductive LightingStage where
  | NotRunning
  | Startup
  | AmortizedExport
  | SwarmKickoff
  | AsynchronousBuilding
  | AutoApplyingImport
  | WaitingForImport
  | Import
deriving DecidableEq, Repr

/-- Environment read by FStaticLightingSystem.CanAutoApplyLighting: editor
settings and global editor state. -/
structure AutoApplyEnv where
  bAutoApplyLightingEnable : Bool
  gIsSlowTask : Bool
  bInterpEditModeActive : Bool
  playWorldValid : Bool
  anyMenusVisible : Bool
  gIsDemoMode : Bool
  hasGameName : Bool
deriving DecidableEq, Repr

/-- FStaticLightingSystem.CanAutoApplyLighting, translated condition for
condition from the source. The source also computes a hardcoded
bIsInteratcting = false, kept here as a literal. -/
def CanAutoApplyLighting (env : AutoApplyEnv) : Bool :=
  let bAutoApplyEnabled := env.bAutoApplyLightingEnable
  let bSlowTask := env.gIsSlowTask
  let bInterpEditMode := env.bInterpEditModeActive
  let bPlayWorldValid := env.playWorldValid
  let bAnyMenusVisible := env.anyMenusVisible
  let bIsInteratcting := false
  let bHasGameOrProjectLoaded := env.hasGameName
  bAutoApplyEnabled && !bSlowTask && !bInterpEditMode && !bPlayWorldValid &&
    !bAnyMenusVisible && !bIsInteratcting && !env.gIsDemoMode && bHasGameOrProjectLoaded

/-- Modelled from the spec: the auto apply gate as the spec words it, namely
the conjunction of exactly six conditions - auto apply preference enabled, no
blocking modal or menu UI open, no long running (slow) task, the InterpEdit
mode not active, no play session active, and a game or project loaded. Used
only to compare the spec wording against CanAutoApplyLighting. -/
def SpecAutoApplyGate (env : AutoApplyEnv) : Bool :=
  env.bAutoApplyLightingEnable && !env.anyMenusVisible && !env.gIsSlowTask &&
    !env.bInterpEditModeActive && !env.playWorldValid && env.hasGameName

/-- Observable side effects of the orchestrator: notifications shown to the
user, editor global flags, and calls into the remote job client. -/
inductive LightingEvent where
  | SendProgressNotification
  | ClearCurrentNotification
  | SetNotificationText
  | NotifyBuildAlreadyInProgress
  | SendBuildDoneNotification (autoApplyFailed : Bool)
  | ShowFailureNotification (cancelled : Bool)
  | OpenMessageLog
  | SetMapBuildCancelled
  | OpenJob
  | CloseJob
  | BeginRun (successful : Bool)
  | InvalidateStaticLighting
  | EncodeTextures
  | ApplyNewLightingData (successful : Bool)
  | ProcessLightingData (discardResults : Bool)
  | FailBuild
deriving DecidableEq, Repr

/-- FGuid record; deterministic lighting writes FGuid(0,0,0,D). -/
structure FGuid where
  A : Nat
  B : Nat
  C : Nat
  D : Nat
deriving DecidableEq, Repr

/-- The fields of FStaticLightingMesh that the orchestrator reads or writes:
the reproducibility Guid, the shadow casting flag and the visibility id list. -/
structure FStaticLightingMesh where
  Guid : FGuid
  bCastShadow : Bool
  VisibilityIds : List Int
deriving DecidableEq, Repr

/-- The fields of FStaticLightingMapping the orchestrator uses: the mesh the
mapping describes, the process-this-mapping flag, and the texel count returned
by GetTexelCount (a virtual whose body lives outside this file, modelled as
data). -/
structure FStaticLightingMapping where
  Mesh : Option FStaticLightingMesh
  bProcessMapping : Bool
  NumTexels : Nat
deriving DecidableEq, Repr

/-- FStaticLightingMappingSortHelper: a mapping paired with its texel count,
the element type of UnSortedMappings. -/
structure FStaticLightingMappingSortHelper where
  Mapping : FStaticLightingMapping
  NumTexels : Nat
deriving DecidableEq, Repr

/-- FStaticLightingPrimitiveInfo: result of a GetStaticLightingInfo query on
one primitive component. -/
structure FStaticLightingPrimitiveInfo where
  VisibilityId : Int
  Meshes : List FStaticLightingMesh
  Mappings : List FStaticLightingMapping
deriving DecidableEq, Repr

/-- The accumulating collections of FStaticLightingSystem during gather, plus
the DeterministicIndex counter. AssignedGuids is the trace, in program order,
of every deterministic GUID written by a Mesh.Guid = FGuid(0,0,0,DeterministicIndex++)
statement; it is instrumentation used to state the density claims. -/
structure GatherState where
  Meshes : List FStaticLightingMesh
  Mappings : List FStaticLightingMapping
  UnSortedMappings : List FStaticLightingMappingSortHelper
  DeterministicIndex : Nat
  AssignedGuids : List FGuid
deriving DecidableEq, Repr

/-- The gather collections at construction of FStaticLightingSystem:
everything empty, DeterministicIndex zero. -/
def emptyGatherState : GatherState := ⟨[], [], [], 0, []⟩

/-- One deterministic GUID assignment, Mesh.Guid = FGuid(0,0,0,DeterministicIndex++):
writes the low component from the counter, increments the counter, and records
the written GUID in the trace. -/
def assignDeterministicGuid (st : GatherState) (m : FStaticLightingMesh) :
    GatherState × FStaticLightingMesh :=
  let g : FGuid := ⟨0, 0, 0, st.DeterministicIndex⟩
  ({ st with
      DeterministicIndex := st.DeterministicIndex + 1,
      AssignedGuids := st.AssignedGuids ++ [g] },
    { m with Guid := g })

/-- Body of the mesh loop of AddPrimitiveStaticLightingInfo: record the
visibility id on the mesh, assign a deterministic GUID when not sorting and
building lighting for the actor, and append the mesh to Meshes. -/
def addMeshStep (bSortMappings bBuildActorLighting : Bool) (visId : Int)
    (st : GatherState) (mesh : FStaticLightingMesh) : GatherState :=
  let mesh := { mesh with VisibilityIds := mesh.VisibilityIds ++ [visId] }
  if !bSortMappings && bBuildActorLighting then
    let (st, mesh) := assignDeterministicGuid st mesh
    { st with Meshes := st.Meshes ++ [mesh] }
  else
    { st with Meshes := st.Meshes ++ [mesh] }

/-- Body of the mapping loop of AddPrimitiveStaticLightingInfo: set
bProcessMapping when building lighting for the actor, then either stash the
mapping in UnSortedMappings (sorting enabled) or append it to Mappings. -/
def addMappingStep (bSortMappings bBuildActorLighting : Bool)
    (st : GatherState) (mapping : FStaticLightingMapping) : GatherState :=
  let mapping :=
    if bBuildActorLighting then { mapping with bProcessMapping := true } else mapping
  if bSortMappings then
    { st with UnSortedMappings := st.UnSortedMappings ++ [⟨mapping, mapping.NumTexels⟩] }
  else
    { st with Mappings := st.Mappings ++ [mapping] }

/-- FStaticLightingSystem.AddPrimitiveStaticLightingInfo. The source first
asserts check(Meshes.Num() == Mappings.Num()); a failed assertion is modelled
as none. Then it walks the meshes (visibility ids, unsorted-path GUID
assignment, Meshes.Add) and the mappings (bProcessMapping, Mappings.Add or
UnSortedMappings stash). -/
def AddPrimitiveStaticLightingInfo (bSortMappings : Bool)
    (info : FStaticLightingPrimitiveInfo) (bBuildActorLighting : Bool)
    (st : GatherState) : Option GatherState :=
  if info.Meshes.length = info.Mappings.length then
    let st := info.Meshes.foldl (addMeshStep bSortMappings bBuildActorLighting info.VisibilityId) st
    some (info.Mappings.foldl (addMappingStep bSortMappings bBuildActorLighting) st)
  else
    none

/-- The data of one FBSPSurfaceStaticLighting produced for a node group: the
object is simultaneously the mesh and its own mapping (its Mesh pointer is
itself), so it is modelled as the mesh data plus the texel count of the
mapping. A freshly constructed surface has bProcessMapping false. -/
structure FBSPSurfaceStaticLighting where
  MeshData : FStaticLightingMesh
  NumTexels : Nat
deriving DecidableEq, Repr

/-- Per node group body of the whole level AddBSPStaticLightingInfo overload.
The C++ mutates one shared object that sits in Meshes and Mappings at once;
here the final record is computed first and then appended, which yields the
same stored contents. With sorting the helper is stashed; otherwise the
mapping is appended and, when building BSP lighting, its mesh receives a
deterministic GUID. bProcessMapping is set exactly when building BSP lighting. -/
def addBSPNodeGroup (bSortMappings bBuildLightingForBSP : Bool)
    (surface : FBSPSurfaceStaticLighting) (st : GatherState) : GatherState :=
  if bSortMappings then
    let mesh := surface.MeshData
    let mapping : FStaticLightingMapping := ⟨some mesh, bBuildLightingForBSP, surface.NumTexels⟩
    { st with
        Meshes := st.Meshes ++ [mesh],
        UnSortedMappings := st.UnSortedMappings ++ [⟨mapping, surface.NumTexels⟩] }
  else if bBuildLightingForBSP then
    let (st, mesh) := assignDeterministicGuid st surface.MeshData
    let mapping : FStaticLightingMapping := ⟨some mesh, true, surface.NumTexels⟩
    { st with Meshes := st.Meshes ++ [mesh], Mappings := st.Mappings ++ [mapping] }
  else
    let mesh := surface.MeshData
    let mapping : FStaticLightingMapping := ⟨some mesh, false, surface.NumTexels⟩
    { st with Meshes := st.Meshes ++ [mesh], Mappings := st.Mappings ++ [mapping] }

/-- Per node group body of the selection scoped AddBSPStaticLightingInfo
overload: identical to the whole level overload except that on the unsorted
path the deterministic GUID assignment is unconditional and bProcessMapping is
always set. -/
def addBSPNodeGroupSelected (bSortMappings : Bool)
    (surface : FBSPSurfaceStaticLighting) (st : GatherState) : GatherState :=
  if bSortMappings then
    let mesh := surface.MeshData
    let mapping : FStaticLightingMapping := ⟨some mesh, true, surface.NumTexels⟩
    { st with
        Meshes := st.Meshes ++ [mesh],
        UnSortedMappings := st.UnSortedMappings ++ [⟨mapping, surface.NumTexels⟩] }
  else
    let (st, mesh) := assignDeterministicGuid st surface.MeshData
    let mapping : FStaticLightingMapping := ⟨some mesh, true, surface.NumTexels⟩
    { st with Meshes := st.Meshes ++ [mesh], Mappings := st.Mappings ++ [mapping] }

/-- One contribution accepted during GatherStaticLightingInfo: a primitive
component query handed to AddPrimitiveStaticLightingInfo, or one node group
handed to either AddBSPStaticLightingInfo overload. -/
inductive GatherStep where
  | prim (info : FStaticLightingPrimitiveInfo) (bBuildActorLighting : Bool)
  | bspWholeLevel (surface : FBSPSurfaceStaticLighting) (bBuildLightingForBSP : Bool)
  | bspSelected (surface : FBSPSurfaceStaticLighting)
deriving DecidableEq, Repr

/-- Dispatch of one gather contribution. -/
def runGatherStep (bSortMappings : Bool) (st : GatherState) :
    GatherStep → Option GatherState
  | GatherStep.prim info b => AddPrimitiveStaticLightingInfo bSortMappings info b st
  | GatherStep.bspWholeLevel surface b => some (addBSPNodeGroup bSortMappings b surface st)
  | GatherStep.bspSelected surface => some (addBSPNodeGroupSelected bSortMappings surface st)

/-- The sequence of contributions of one gather phase, folded over the system
state; none propagates a failed assertion. -/
def runGatherSteps (bSortMappings : Bool) (steps : List GatherStep)
    (st : GatherState) : Option GatherState :=
  steps.foldlM (fun s step => runGatherStep bSortMappings s step) st

/-- The FCompareNumTexels comparator of BeginLightmassProcess: A precedes B
when B.NumTexels < A.NumTexels (descending texel count). -/
def FCompareNumTexels (A B : FStaticLightingMappingSortHelper) : Bool :=
  B.NumTexels < A.NumTexels

/-- The precedence relation induced by the comparator: x may stay before y
when the comparator does not require y before x. -/
def sortHelperPrecedes (x y : FStaticLightingMappingSortHelper) : Prop :=
  FCompareNumTexels y x = false

instance : DecidableRel sortHelperPrecedes := fun x y => by
  unfold sortHelperPrecedes
  infer_instance

instance : IsTotal FStaticLightingMappingSortHelper sortHelperPrecedes where
  total := fun x y => by
    simp only [sortHelperPrecedes, FCompareNumTexels, decide_eq_false_iff_not, not_lt]
    omega

instance : IsTrans FStaticLightingMappingSortHelper sortHelperPrecedes where
  trans := fun x y z => by
    simp only [sortHelperPrecedes, FCompareNumTexels, decide_eq_false_iff_not, not_lt]
    omega

/-- Modelled from the spec: UnSortedMappings.Sort(FCompareNumTexels()) calls
the TArray sort routine (Engine/Source/Runtime/Core Sorting.h, not under src);
only the comparator is in src. The spec states the sort rule as descending by
texel count with ties broken by original gather order, i.e. a stable sort
under the src comparator; the standard stable insertion sort under the induced
precedence realises exactly that rule. -/
def sortMappingsByNumTexels (l : List FStaticLightingMappingSortHelper) :
    List FStaticLightingMappingSortHelper :=
  List.insertionSort sortHelperPrecedes l

/-- Body of the post-sort walk of BeginLightmassProcess: append the mapping to
Mappings, and when it is flagged for rebuild and has a mesh, stamp the mesh
with the next deterministic GUID. -/
def sortPathAssignStep (st : GatherState) (h : FStaticLightingMappingSortHelper) :
    GatherState :=
  let mapping := h.Mapping
  if mapping.bProcessMapping then
    match mapping.Mesh with
    | some mesh =>
        let (st, mesh) := assignDeterministicGuid st mesh
        { st with Mappings := st.Mappings ++ [{ mapping with Mesh := some mesh }] }
    | none => { st with Mappings := st.Mappings ++ [mapping] }
  else
    { st with Mappings := st.Mappings ++ [mapping] }

/-- The sort block of BeginLightmassProcess (executed when bSortMappings):
sort UnSortedMappings by descending texel count, walk the result moving every
mapping into Mappings and stamping deterministic GUIDs on the meshes of
flagged mappings, then empty UnSortedMappings. -/
def SortAndAssignDeterministicIds (st : GatherState) : GatherState :=
  let sorted := sortMappingsByNumTexels st.UnSortedMappings
  sorted.foldl sortPathAssignStep { st with UnSortedMappings := [] }

/-- The deterministic id phase of BeginLightmassProcess: the sort block runs
only when bSortMappings is set; on the unsorted paths the ids were already
assigned during gather. -/
def BeginLightmassAssignPhase (bSortMappings : Bool) (st : GatherState) : GatherState :=
  if bSortMappings then SortAndAssignDeterministicIds st else st

/-- Number of mappings flagged for rebuild. -/
def countProcessMappings (l : List FStaticLightingMapping) : Nat :=
  l.countP (fun m => m.bProcessMapping)

/-- The dense deterministic GUID sequence FGuid(0,0,0,0) .. FGuid(0,0,0,k-1). -/
def detGuidRange (k : Nat) : List FGuid :=
  (List.range k).map (fun d => ⟨0, 0, 0, d⟩)

/-- The per session state of one FStaticLightingSystem: the current build
stage, the cooperative cancellation flag, and the gathered collections. -/
structure SystemState where
  stage : LightingStage
  bBuildCanceled : Bool
  gather : GatherState
deriving DecidableEq, Repr

/-- Collaborator results read during one UpdateLightingBuild tick: the
amortized export progress, the Swarm kickoff result, the asynchronous update
poll, the final success flag of the remote computation, and the environment
of the auto apply gate. -/
structure TickInputs where
  amortizedExportCompleted : Bool
  beginRunSuccessful : Bool
  updateFinished : Bool
  processingCompletedSuccessfully : Bool
  env : AutoApplyEnv
deriving DecidableEq, Repr

/-- FStaticLightingSystem.UpdateLightingBuild: one poll of the state machine.
Branches follow the source if chain on CurrentBuildStage. The manager level
FailLightingBuild call in the Swarm kickoff failure and remote failure
branches is emitted as the FailBuild event; in the remote failure branch the
source then writes CurrentBuildStage = NotRunning. -/
def UpdateLightingBuild (sys : SystemState) (inp : TickInputs) :
    SystemState × List LightingEvent :=
  if sys.stage = LightingStage.AmortizedExport then
    if inp.amortizedExportCompleted then
      ({ sys with stage := LightingStage.SwarmKickoff }, [LightingEvent.SetNotificationText])
    else
      (sys, [LightingEvent.SetNotificationText])
  else if sys.stage = LightingStage.SwarmKickoff then
    if inp.beginRunSuccessful then
      ({ sys with stage := LightingStage.AsynchronousBuilding },
        [LightingEvent.SetNotificationText, LightingEvent.BeginRun true])
    else
      (sys,
        [LightingEvent.SetNotificationText, LightingEvent.BeginRun false,
          LightingEvent.FailBuild])
  else if sys.stage = LightingStage.AsynchronousBuilding then
    if inp.updateFinished then
      if inp.processingCompletedSuccessfully then
        ({ sys with stage := LightingStage.AutoApplyingImport },
          [LightingEvent.SetNotificationText, LightingEvent.ClearCurrentNotification])
      else
        ({ sys with stage := LightingStage.NotRunning },
          [LightingEvent.SetNotificationText, LightingEvent.ClearCurrentNotification,
            LightingEvent.FailBuild])
    else
      (sys, [LightingEvent.SetNotificationText])
  else if sys.stage = LightingStage.AutoApplyingImport then
    if CanAutoApplyLighting inp.env then
      ({ sys with stage := LightingStage.NotRunning },
        [LightingEvent.SendBuildDoneNotification false, LightingEvent.ProcessLightingData false])
    else
      ({ sys with stage := LightingStage.WaitingForImport },
        [LightingEvent.SendBuildDoneNotification true])
  else
    (sys, [])

/-- FStaticLightingSystem.IsAsyncBuilding. -/
def IsAsyncBuilding (sys : SystemState) : Bool :=
  sys.stage = LightingStage.AsynchronousBuilding

/-- The process wide state held by FStaticLightingManager and the editor
globals it touches: the at most one live system, the validity of the current
light build notification, and the GEditor map build cancelled flag. -/
structure ManagerState where
  staticLightingSystem : Option SystemState
  hasLightBuildNotification : Bool
  mapBuildCancelled : Bool
deriving DecidableEq, Repr

/-- FStaticLightingManager.FailLightingBuild: clears the current notification,
shows a failure notification (worded as cancelled when the map build
cancelled flag is set), opens the lighting results log, and destroys the
system. -/
def FailLightingBuild (mgr : ManagerState) : ManagerState × List LightingEvent :=
  ({ mgr with staticLightingSystem := none, hasLightBuildNotification := true },
    [LightingEvent.ClearCurrentNotification,
      LightingEvent.ShowFailureNotification mgr.mapBuildCancelled,
      LightingEvent.OpenMessageLog])

/-- FStaticLightingManager.CancelLightingBuild: dereferences the system
pointer (none models the undefined call with no live system); when the system
is asynchronously building it sets the editor map build cancelled flag and
clears the notification, otherwise it performs the immediate failure
teardown. -/
def CancelLightingBuild (mgr : ManagerState) :
    Option (ManagerState × List LightingEvent) :=
  match mgr.staticLightingSystem with
  | none => none
  | some sys =>
    if IsAsyncBuilding sys then
      some ({ mgr with mapBuildCancelled := true, hasLightBuildNotification := false },
        [LightingEvent.SetMapBuildCancelled, LightingEvent.ClearCurrentNotification])
    else
      some (FailLightingBuild mgr)

/-- FStaticLightingManager.CreateStaticLightingSystem: when no system is
alive, construct one and run BeginLightmassProcess (its outcome and resulting
system state are inputs), keeping the system and showing the progress
notification on success and destroying it on failure; when a system is
already alive, show the already in progress notification and change nothing. -/
def CreateStaticLightingSystem (mgr : ManagerState) (newSystem : SystemState)
    (beginSuccessful : Bool) : ManagerState × List LightingEvent :=
  match mgr.staticLightingSystem with
  | none =>
    if beginSuccessful then
      ({ mgr with staticLightingSystem := some newSystem, hasLightBuildNotification := true },
        [LightingEvent.SendProgressNotification])
    else
      ({ mgr with staticLightingSystem := none }, [])
  | some _ => (mgr, [LightingEvent.NotifyBuildAlreadyInProgress])

/-- FStaticLightingSystem.InitiateLightmassProcessor: skipped entirely when
the map build was already cancelled; otherwise OpenJob is attempted, and on
success the export is initiated and the stage becomes AmortizedExport.
Returns the new system state, the bSuccessful result, and the events. -/
def InitiateLightmassProcessor (sys : SystemState) (mapBuildCancelled : Bool)
    (openJobSuccessful : Bool) : SystemState × Bool × List LightingEvent :=
  if mapBuildCancelled then
    (sys, false, [])
  else if openJobSuccessful then
    ({ sys with stage := LightingStage.AmortizedExport }, true, [LightingEvent.OpenJob])
  else
    (sys, false, [LightingEvent.OpenJob])

/-- FStaticLightingSystem.FinishLightmassProcess, coarsely: enter the Import
stage, invalidate previous lighting, complete the run and the deterministic
mappings, encode textures, close the Swarm job exactly once, fold in the
cancellation flag and apply or discard. Collaborator results are inputs. -/
def FinishLightmassProcess (sys : SystemState) (completeRunSuccessful : Bool)
    (closeJobSuccessful : Bool) (mapBuildCancelledNow : Bool) :
    SystemState × Bool × List LightingEvent :=
  let sys := { sys with stage := LightingStage.Import }
  let bSuccessful := completeRunSuccessful && closeJobSuccessful
  let bBuildCanceled := sys.bBuildCanceled || mapBuildCancelledNow
  let bSuccessful := bSuccessful && !bBuildCanceled
  ({ sys with bBuildCanceled := bBuildCanceled }, bSuccessful,
    [LightingEvent.InvalidateStaticLighting, LightingEvent.EncodeTextures,
      LightingEvent.CloseJob, LightingEvent.ApplyNewLightingData bSuccessful])

/-- EComponentMobility values distinguished by the gather loop. -/
inductive EComponentMobility where
  | Static
  | Stationary
  | Movable
deriving DecidableEq, Repr

/-- The fields of UPrimitiveComponent read or written by the visibility id
logic of GatherStaticLightingInfo: registration, mobility, the VisibilityId
slot, and the number of meshes its GetStaticLightingInfo query yields (the
query body lives in the component classes outside this file, modelled as
data). -/
structure UPrimitiveComponent where
  bRegistered : Bool
  Mobility : EComponentMobility
  VisibilityId : Int
  LightingInfoMeshCount : Nat
deriving DecidableEq, Repr

/-- The per level mutable locals of GatherStaticLightingInfo relevant to
visibility ids: the NextVisibilityId counter of the system and the
bMarkLevelDirty flag (reset at the top of each level iteration). -/
structure ComponentGatherState where
  NextVisibilityId : Nat
  bMarkLevelDirty : Bool
deriving DecidableEq, Repr

/-- The visibility id part of the component loop of GatherStaticLightingInfo:
a registered component (when precomputed lighting is not suppressed) is
queried; when the query yields at least one mesh and the mobility is static,
the level dirty flag is raised if the world precomputes visibility, and the
component receives the current NextVisibilityId, which is then incremented.
Returns the new state, the updated component, and the assigned id if any. -/
def gatherComponentVisibility (bForceNoPrecomputedLighting bPrecomputeVisibility : Bool)
    (st : ComponentGatherState) (prim : UPrimitiveComponent) :
    ComponentGatherState × UPrimitiveComponent × Option Nat :=
  if prim.bRegistered = true ∧ bForceNoPrecomputedLighting = false then
    if 0 < prim.LightingInfoMeshCount ∧ prim.Mobility = EComponentMobility.Static then
      let st := if bPrecomputeVisibility then { st with bMarkLevelDirty := true } else st
      let vid := st.NextVisibilityId
      ({ st with NextVisibilityId := vid + 1 },
        { prim with VisibilityId := Int.ofNat vid }, some vid)
    else
      (st, prim, none)
  else
    (st, prim, none)

/-- The component loop of GatherStaticLightingInfo over the primitives of one
level, returning the final state and each component paired with the id
assigned to it, in order. -/
def gatherLevelComponents (bForceNoPrecomputedLighting bPrecomputeVisibility : Bool)
    (st : ComponentGatherState) :
    List UPrimitiveComponent → ComponentGatherState × List (UPrimitiveComponent × Option Nat)
  | [] => (st, [])
  | prim :: rest =>
    let (st, prim, assigned) :=
      gatherComponentVisibility bForceNoPrecomputedLighting bPrecomputeVisibility st prim
    let (stFinal, restResults) :=
      gatherLevelComponents bForceNoPrecomputedLighting bPrecomputeVisibility st rest
    (stFinal, (prim, assigned) :: restResults)

/-- A level as seen by the visibility id logic: the per level outcome of
Options.ShouldBuildLightingForLevel, and its primitive components. -/
structure ULevel where
  bShouldBuildLightingForLevel : Bool
  Primitives : List UPrimitiveComponent
deriving DecidableEq, Repr

/-- The world as seen by the visibility id logic. -/
structure UWorld where
  Levels : List ULevel
  bPrecomputeVisibility : Bool
deriving DecidableEq, Repr

/-- The startup loop of BeginLightmassProcess: the TObjectIterator walk over
every UPrimitiveComponent in the process sets VisibilityId = INDEX_NONE. It
runs over all components, with no per level eligibility test. -/
def resetAllVisibilityIds (w : UWorld) : UWorld :=
  { w with
      Levels := w.Levels.map (fun lvl =>
        { lvl with
            Primitives := lvl.Primitives.map (fun p =>
              { p with VisibilityId := INDEX_NONE }) }) }

/-- The level loop of GatherStaticLightingInfo restricted to visibility ids:
the NextVisibilityId counter threads across levels, the dirty flag is reset
per level. Every level is iterated, eligible for building or not. -/
def gatherWorldVisibility (bForceNoPrecomputedLighting : Bool) (w : UWorld) :
    ComponentGatherState × List (List (UPrimitiveComponent × Option Nat)) :=
  w.Levels.foldl
    (fun acc lvl =>
      let (st, results) := gatherLevelComponents bForceNoPrecomputedLighting
        w.bPrecomputeVisibility { acc.1 with bMarkLevelDirty := false } lvl.Primitives
      (st, acc.2 ++ [results]))
    (⟨0, false⟩, [])

/-- The startup plus gather sequencing of BeginLightmassProcess: the
VisibilityId reset runs in the startup block, before GatherStaticLightingInfo
is called. -/
def BeginLightmassGatherPhase (bForceNoPrecomputedLighting : Bool) (w : UWorld) :
    ComponentGatherState × List (List (UPrimitiveComponent × Option Nat)) :=
  gatherWorldVisibility bForceNoPrecomputedLighting (resetAllVisibilityIds w)

/-- A mapping as produced by a GetStaticLightingInfo query before the
orchestrator touches it: the FStaticLightingMapping constructor initialises
bProcessMapping to false, and primitive mappings point at their mesh. -/
def freshMapping (m : FStaticLightingMapping) : Bool :=
  !m.bProcessMapping && m.Mesh.isSome

/-- A gather contribution whose primitive mappings are freshly constructed. -/
def freshStep : GatherStep → Bool
  | GatherStep.prim info _ => info.Mappings.all freshMapping
  | GatherStep.bspWholeLevel _ _ => true
  | GatherStep.bspSelected _ => true

/-- Invariant of the unsorted gather paths: the trace of assigned GUIDs is
exactly the dense prefix up to DeterministicIndex, every flagged mapping was
matched by one assignment, and nothing sits in UnSortedMappings. -/
def UnsortedGatherInv (st : GatherState) : Prop :=
  st.AssignedGuids = detGuidRange st.DeterministicIndex ∧
  countProcessMappings st.Mappings = st.DeterministicIndex ∧
  st.UnSortedMappings = []

/-- Invariant of the sorted gather path: no deterministic GUID has been
assigned yet, Mappings is untouched, and every stashed helper whose mapping is
flagged carries a mesh. -/
def SortedGatherInv (st : GatherState) : Prop :=
  st.AssignedGuids = [] ∧ st.DeterministicIndex = 0 ∧ st.Mappings = [] ∧
  ∀ h ∈ st.UnSortedMappings,
    h.Mapping.bProcessMapping = true → h.Mapping.Mesh.isSome = true

/-- One mesh per mapping, counting both homes a mapping can be in. -/
def MeshMappingLenInv (st : GatherState) : Prop :=
  st.Meshes.length = st.Mappings.length + st.UnSortedMappings.length

/-- Sample data used by the witness theorems. -/
def sampleMeshA : FStaticLightingMesh := ⟨⟨9, 9, 9, 9⟩, true, []⟩

def sampleMeshB : FStaticLightingMesh := ⟨⟨7, 7, 7, 7⟩, false, []⟩

def sampleMappingA : FStaticLightingMapping := ⟨some sampleMeshA, false, 16⟩

def sampleMappingB : FStaticLightingMapping := ⟨some sampleMeshB, false, 64⟩

def samplePrimInfo : FStaticLightingPrimitiveInfo :=
  ⟨5, [sampleMeshA, sampleMeshB], [sampleMappingA, sampleMappingB]⟩

def sampleSurface : FBSPSurfaceStaticLighting := ⟨sampleMeshB, 32⟩

def sampleGatherSteps : List GatherStep :=
  [GatherStep.prim samplePrimInfo true,
    GatherStep.bspWholeLevel sampleSurface true,
    GatherStep.bspSelected sampleSurface,
    GatherStep.prim samplePrimInfo false]

def sampleSortHelpers : List FStaticLightingMappingSortHelper :=
  [⟨sampleMappingA, 16⟩, ⟨sampleMappingB, 64⟩, ⟨⟨some sampleMeshA, true, 16⟩, 16⟩]

def favorableEnv : AutoApplyEnv := ⟨true, false, false, false, false, false, true⟩

def demoModeEnv : AutoApplyEnv := ⟨true, false, false, false, false, true, true⟩

def asyncStageSystem : SystemState :=
  ⟨LightingStage.AsynchronousBuilding, false, emptyGatherState⟩

def exportStageSystem : SystemState :=
  ⟨LightingStage.AmortizedExport, false, emptyGatherState⟩

def startupStageSystem : SystemState :=
  ⟨LightingStage.Startup, false, emptyGatherState⟩

def autoApplyStageSystem : SystemState :=
  ⟨LightingStage.AutoApplyingImport, false, emptyGatherState⟩

def managerWithAsyncSystem : ManagerState := ⟨some asyncStageSystem, true, false⟩

def managerWithExportSystem : ManagerState := ⟨some exportStageSystem, true, false⟩

def sampleTickFinishedFailed : TickInputs := ⟨false, false, true, false, favorableEnv⟩

def sampleTickIdle : TickInputs := ⟨false, false, false, false, favorableEnv⟩

def samplePrimComponents : List UPrimitiveComponent :=
  [⟨true, EComponentMobility.Static, INDEX_NONE, 2⟩,
    ⟨true, EComponentMobility.Movable, INDEX_NONE, 1⟩,
    ⟨false, EComponentMobility.Static, INDEX_NONE, 3⟩,
    ⟨true, EComponentMobility.Static, INDEX_NONE, 0⟩,
    ⟨true, EComponentMobility.Static, INDEX_NONE, 1⟩]

def sampleWorld : UWorld :=
  ⟨[⟨true, samplePrimComponents⟩,
      ⟨false, [⟨true, EComponentMobility.Static, 7, 1⟩]⟩], true⟩

/-- Claim C2: in every tick while the build stage is AsynchronousBuilding, if
the remote processor reports finished and the remote computation succeeded the
stage becomes AutoApplyingImport; if it reports finished but the computation
failed, the build is failed (FailBuild teardown is invoked) and the stage
becomes NotRunning; and if it does not report finished the stage stays
AsynchronousBuilding. -/
theorem C2_async_tick_transitions (sys : SystemState) (inp : TickInputs)
    (h : sys.stage = LightingStage.AsynchronousBuilding) :
    (inp.updateFinished = true → inp.processingCompletedSuccessfully = true →
      (UpdateLightingBuild sys inp).1.stage = LightingStage.AutoApplyingImport) ∧
    (inp.updateFinished = true → inp.processingCompletedSuccessfully = false →
      (UpdateLightingBuild sys inp).1.stage = LightingStage.NotRunning ∧
      LightingEvent.FailBuild ∈ (UpdateLightingBuild sys inp).2) ∧
    (inp.updateFinished = false →
      (UpdateLightingBuild sys inp).1.stage = LightingStage.AsynchronousBuilding) := by
  obtain ⟨a, k, f, s, env⟩ := inp
  simp only [UpdateLightingBuild, h]
  cases f <;> cases s <;> simp [h]

/-- Witness for C2 at a concrete asynchronous system and a tick whose poll
reports finished with a failed remote computation. -/
theorem C2_async_tick_transitions_witness :
    (UpdateLightingBuild asyncStageSystem sampleTickFinishedFailed).1.stage
        = LightingStage.NotRunning ∧
    LightingEvent.FailBuild ∈ (UpdateLightingBuild asyncStageSystem sampleTickFinishedFailed).2 :=
  (C2_async_tick_transitions asyncStageSystem sampleTickFinishedFailed rfl).2.1 rfl rfl

/-- Claim C3: a build request issued while a system is already alive is
rejected with the already in progress notification, no second system is
created, and the state of the in progress build (the manager state, hence the
system pointer, its stage and its accumulated data) is left unchanged. At
most one system exists at any time by construction: the manager holds an
Option of a single system. -/
theorem C3_second_build_rejected (mgr : ManagerState) (sys newSys : SystemState)
    (beginSuccessful : Bool) (h : mgr.staticLightingSystem = some sys) :
    CreateStaticLightingSystem mgr newSys beginSuccessful
        = (mgr, [LightingEvent.NotifyBuildAlreadyInProgress]) ∧
    (CreateStaticLightingSystem mgr newSys beginSuccessful).1.staticLightingSystem
        = some sys := by
  simp [CreateStaticLightingSystem, h]

/-- Witness for C3 at a concrete manager holding an asynchronous system. -/
theorem C3_second_build_rejected_witness :
    CreateStaticLightingSystem managerWithAsyncSystem startupStageSystem true
        = (managerWithAsyncSystem, [LightingEvent.NotifyBuildAlreadyInProgress]) ∧
    (CreateStaticLightingSystem managerWithAsyncSystem startupStageSystem true).1.staticLightingSystem
        = some asyncStageSystem :=
  C3_second_build_rejected managerWithAsyncSystem asyncStageSystem startupStageSystem true rfl

/-- Claim C4 counterexample: the claim states that automatic application is
permitted if and only if the six listed conditions hold. With demo mode
active and all six conditions favorable, the six condition gate is true but
CanAutoApplyLighting returns false, because the source additionally requires
GIsDemoMode to be false. -/
theorem C4_counterexample_demo_mode :
    SpecAutoApplyGate demoModeEnv = true ∧
    CanAutoApplyLighting demoModeEnv = false ∧
    CanAutoApplyLighting demoModeEnv ≠ SpecAutoApplyGate demoModeEnv := by
  refine ⟨rfl, rfl, ?_⟩
  decide

/-- Claim C4 amended: automatic application is permitted if and only if all
six listed conditions hold and, in addition, demo mode is not active; and a
tick in AutoApplyingImport goes to NotRunning exactly when the gate permits,
to WaitingForImport otherwise. -/
theorem C4_amended_auto_apply_gate (env : AutoApplyEnv) (sys : SystemState)
    (inp : TickInputs) (h : sys.stage = LightingStage.AutoApplyingImport) :
    CanAutoApplyLighting env = (SpecAutoApplyGate env && !env.gIsDemoMode) ∧
    (UpdateLightingBuild sys inp).1.stage =
      (if CanAutoApplyLighting inp.env then LightingStage.NotRunning
        else LightingStage.WaitingForImport) := by
  constructor
  · obtain ⟨a, b, c, d, e, f, g⟩ := env
    cases a <;> cases b <;> cases c <;> cases d <;> cases e <;> cases f <;> cases g <;> rfl
  · simp only [UpdateLightingBuild, h]
    by_cases hc : CanAutoApplyLighting inp.env = true <;> simp [hc]

/-- Witness for C4 at a concrete system in AutoApplyingImport, with an
environment in which every condition is favorable. -/
theorem C4_amended_auto_apply_gate_witness :
    CanAutoApplyLighting favorableEnv = (SpecAutoApplyGate favorableEnv && !favorableEnv.gIsDemoMode) ∧
    (UpdateLightingBuild autoApplyStageSystem sampleTickIdle).1.stage =
      (if CanAutoApplyLighting sampleTickIdle.env then LightingStage.NotRunning
        else LightingStage.WaitingForImport) :=
  C4_amended_auto_apply_gate favorableEnv autoApplyStageSystem sampleTickIdle rfl

/-- Claim C5: on an explicit cancellation request, if the stage is
AsynchronousBuilding the manager only sets the cooperative map build
cancelled flag and clears the progress notification, leaving the system (and
teardown) to the remote client unwind; at any other stage it immediately runs
the failure teardown that destroys the system. -/
theorem C5_cancellation_paths (mgr : ManagerState) (sys : SystemState)
    (h : mgr.staticLightingSystem = some sys) :
    (sys.stage = LightingStage.AsynchronousBuilding →
      CancelLightingBuild mgr =
        some ({ mgr with mapBuildCancelled := true, hasLightBuildNotification := false },
          [LightingEvent.SetMapBuildCancelled, LightingEvent.ClearCurrentNotification]) ∧
      ∀ r ∈ CancelLightingBuild mgr, r.1.staticLightingSystem = some sys) ∧
    (sys.stage ≠ LightingStage.AsynchronousBuilding →
      CancelLightingBuild mgr = some (FailLightingBuild mgr) ∧
      ∀ r ∈ CancelLightingBuild mgr, r.1.staticLightingSystem = none) := by
  constructor
  · intro hs
    simp [CancelLightingBuild, h, IsAsyncBuilding, hs]
  · intro hs
    simp [CancelLightingBuild, h, IsAsyncBuilding, hs, FailLightingBuild]

/-- Witness for C5 at a concrete manager holding an asynchronous system. -/
theorem C5_cancellation_paths_witness :
    CancelLightingBuild managerWithAsyncSystem =
      some ({ managerWithAsyncSystem with
                mapBuildCancelled := true, hasLightBuildNotification := false },
        [LightingEvent.SetMapBuildCancelled, LightingEvent.ClearCurrentNotification]) ∧
    ∀ r ∈ CancelLightingBuild managerWithAsyncSystem,
      r.1.staticLightingSystem = some asyncStageSystem :=
  (C5_cancellation_paths managerWithAsyncSystem asyncStageSystem rfl).1 rfl

/-- Claim C6: cancelling while the stage is AmortizedExport tears the build
down directly (the system is destroyed, no job close call is made on the
teardown path); and, as the claim itself notes, the stated precondition of
the spec fails in the code: starting from Startup, the stage becomes
AmortizedExport exactly when the build was not already cancelled and OpenJob
succeeded, so a remote job is already open during AmortizedExport. -/
theorem C6_cancel_during_amortized_export (mgr : ManagerState)
    (sys sys2 : SystemState) (c o : Bool)
    (h : mgr.staticLightingSystem = some sys)
    (hstage : sys.stage = LightingStage.AmortizedExport)
    (hstart : sys2.stage = LightingStage.Startup) :
    (∀ r ∈ CancelLightingBuild mgr,
        r.1.staticLightingSystem = none ∧ LightingEvent.CloseJob ∉ r.2) ∧
    ((InitiateLightmassProcessor sys2 c o).1.stage = LightingStage.AmortizedExport ↔
      (c = false ∧ o = true)) ∧
    (c = false → o = true →
      LightingEvent.OpenJob ∈ (InitiateLightmassProcessor sys2 c o).2.2) := by
  refine ⟨?_, ?_, ?_⟩
  · intro r hr
    simp [CancelLightingBuild, h, IsAsyncBuilding, hstage, FailLightingBuild] at hr
    subst hr
    simp
  · cases c <;> cases o <;> simp [InitiateLightmassProcessor, hstart]
  · intro hc ho
    subst hc; subst ho
    simp [InitiateLightmassProcessor]

/-- Witness for C6 at a concrete manager holding a system in AmortizedExport,
a fresh system in Startup, no prior cancellation and a successful OpenJob. -/
theorem C6_cancel_during_amortized_export_witness :
    (∀ r ∈ CancelLightingBuild managerWithExportSystem,
        r.1.staticLightingSystem = none ∧ LightingEvent.CloseJob ∉ r.2) ∧
    ((InitiateLightmassProcessor startupStageSystem false true).1.stage
        = LightingStage.AmortizedExport ↔ (false = false ∧ true = true)) ∧
    (false = false → true = true →
      LightingEvent.OpenJob ∈ (InitiateLightmassProcessor startupStageSystem false true).2.2) :=
  C6_cancel_during_amortized_export managerWithExportSystem exportStageSystem
    startupStageSystem false true rfl rfl rfl

/-- Claim C10: at the very start of a build, before any gathering, the
startup phase of BeginLightmassProcess resets the VisibilityId of every
primitive component to INDEX_NONE. The reset walk is quantified over every
level and every component with no eligibility condition, so it covers
components of levels excluded from the build by the options; and the gather
phase of BeginLightmassProcess runs, by the modelled sequencing, on the reset
world, so no visibility id of a previous build survives into the new
assignment. -/
theorem C10_visibility_reset_before_gather (w : UWorld) :
    (∀ lvl ∈ (resetAllVisibilityIds w).Levels, ∀ p ∈ lvl.Primitives,
        p.VisibilityId = INDEX_NONE) ∧
    (∀ bForceNoPrecomputedLighting,
      BeginLightmassGatherPhase bForceNoPrecomputedLighting w =
        gatherWorldVisibility bForceNoPrecomputedLighting (resetAllVisibilityIds w)) := by
  constructor
  · intro lvl hlvl p hp
    simp only [resetAllVisibilityIds, List.mem_map] at hlvl
    obtain ⟨lvl0, _, rfl⟩ := hlvl
    simp only [List.mem_map] at hp
    obtain ⟨p0, _, rfl⟩ := hp
    rfl
  · intro bForce
    rfl

/-- Witness for C10 at a concrete world with one eligible and one excluded
level, whose second level holds a component with a stale visibility id. -/
theorem C10_visibility_reset_before_gather_witness :
    (∀ lvl ∈ (resetAllVisibilityIds sampleWorld).Levels, ∀ p ∈ lvl.Primitives,
        p.VisibilityId = INDEX_NONE) ∧
    (∀ bForceNoPrecomputedLighting,
      BeginLightmassGatherPhase bForceNoPrecomputedLighting sampleWorld =
        gatherWorldVisibility bForceNoPrecomputedLighting (resetAllVisibilityIds sampleWorld)) :=
  C10_visibility_reset_before_gather sampleWorld

/-- Case characterisation of the per component visibility logic: either the
component passes all checks and receives the current counter value, or
nothing changes. -/
theorem gatherComponentVisibility_cases (f p : Bool) (st : ComponentGatherState)
    (prim : UPrimitiveComponent) :
    ((prim.bRegistered = true ∧ f = false ∧ 0 < prim.LightingInfoMeshCount ∧
        prim.Mobility = EComponentMobility.Static) ∧
      gatherComponentVisibility f p st prim =
        (⟨st.NextVisibilityId + 1, if p then true else st.bMarkLevelDirty⟩,
          { prim with VisibilityId := Int.ofNat st.NextVisibilityId },
          some st.NextVisibilityId)) ∨
    ((¬(prim.bRegistered = true ∧ f = false ∧ 0 < prim.LightingInfoMeshCount ∧
        prim.Mobility = EComponentMobility.Static)) ∧
      gatherComponentVisibility f p st prim = (st, prim, none)) := by
  unfold gatherComponentVisibility
  by_cases h1 : prim.bRegistered = true ∧ f = false
  · by_cases h2 : 0 < prim.LightingInfoMeshCount ∧ prim.Mobility = EComponentMobility.Static
    · left
      refine ⟨⟨h1.1, h1.2, h2.1, h2.2⟩, ?_⟩
      rw [if_pos h1, if_pos h2]
      cases p <;> rfl
    · right
      refine ⟨by tauto, ?_⟩
      rw [if_pos h1, if_neg h2]
  · right
    refine ⟨by tauto, ?_⟩
    rw [if_neg h1]

/-- Unfolding equation of the component loop on a cons cell. -/
theorem gatherLevelComponents_cons (f p : Bool) (st : ComponentGatherState)
    (prim : UPrimitiveComponent) (rest : List UPrimitiveComponent) :
    gatherLevelComponents f p st (prim :: rest) =
      ((gatherLevelComponents f p (gatherComponentVisibility f p st prim).1 rest).1,
        ((gatherComponentVisibility f p st prim).2.1,
          (gatherComponentVisibility f p st prim).2.2) ::
          (gatherLevelComponents f p (gatherComponentVisibility f p st prim).1 rest).2) := by
  rfl

/-- Each gathered pair satisfies the assignment characterisation: an id is
assigned exactly when the component is registered, precomputed lighting is
not suppressed, the query yielded a mesh and the mobility is static; and the
assigned id is written into the component. -/
theorem gatherLevelComponents_results (f p : Bool) :
    ∀ (prims : List UPrimitiveComponent) (st : ComponentGatherState),
      ∀ pr ∈ (gatherLevelComponents f p st prims).2,
        ((pr.2.isSome = true) ↔
          (pr.1.bRegistered = true ∧ f = false ∧ 0 < pr.1.LightingInfoMeshCount ∧
            pr.1.Mobility = EComponentMobility.Static)) ∧
        (∀ v, pr.2 = some v → pr.1.VisibilityId = Int.ofNat v)
  | [], st => by simp [gatherLevelComponents]
  | prim :: rest, st => by
      intro pr hpr
      rw [gatherLevelComponents_cons] at hpr
      rcases List.mem_cons.mp hpr with hhead | htail
      · rcases gatherComponentVisibility_cases f p st prim with ⟨hcond, heq⟩ | ⟨hcond, heq⟩
        · subst hhead
          rw [heq]
          refine ⟨?_, ?_⟩
          · exact iff_of_true rfl ⟨hcond.1, hcond.2.1, hcond.2.2.1, hcond.2.2.2⟩
          · intro v hv
            cases hv
            rfl
        · subst hhead
          rw [heq]
          refine ⟨?_, ?_⟩
          · exact iff_of_false (by simp) hcond
          · intro v hv
            cases hv
      · exact gatherLevelComponents_results f p rest
          (gatherComponentVisibility f p st prim).1 pr htail

/-- The assigned ids of the component loop form the dense interval starting
at the incoming counter, and the counter advances by their number. -/
theorem gatherLevelComponents_trace (f p : Bool) :
    ∀ (prims : List UPrimitiveComponent) (st : ComponentGatherState),
      ((gatherLevelComponents f p st prims).2.filterMap Prod.snd)
        = List.range' st.NextVisibilityId
            (((gatherLevelComponents f p st prims).2.filterMap Prod.snd).length) ∧
      (gatherLevelComponents f p st prims).1.NextVisibilityId
        = st.NextVisibilityId
            + ((gatherLevelComponents f p st prims).2.filterMap Prod.snd).length
  | [], st => by simp [gatherLevelComponents]
  | prim :: rest, st => by
      rcases gatherComponentVisibility_cases f p st prim with ⟨_, heq⟩ | ⟨_, heq⟩
      · have ih := gatherLevelComponents_trace f p rest
          ⟨st.NextVisibilityId + 1, if p then true else st.bMarkLevelDirty⟩
        rw [gatherLevelComponents_cons, heq]
        simp only [List.filterMap_cons, List.length_cons]
        constructor
        · rw [List.range'_succ]
          exact congrArg (st.NextVisibilityId :: ·) ih.1
        · have hproj : (⟨st.NextVisibilityId + 1,
              if p = true then true else st.bMarkLevelDirty⟩ :
                ComponentGatherState).NextVisibilityId = st.NextVisibilityId + 1 := rfl
          rw [ih.2, hproj]
          omega
      · have ih := gatherLevelComponents_trace f p rest st
        rw [gatherLevelComponents_cons, heq]
        simpa using ih

/-- The level dirty flag is raised exactly when the world precomputes
visibility and some component received an id. -/
theorem gatherLevelComponents_dirty (f p : Bool) :
    ∀ (prims : List UPrimitiveComponent) (st : ComponentGatherState),
      ((gatherLevelComponents f p st prims).1.bMarkLevelDirty = true) ↔
        (st.bMarkLevelDirty = true ∨
          (p = true ∧ ∃ pr ∈ (gatherLevelComponents f p st prims).2, pr.2.isSome = true))
  | [], st => by simp [gatherLevelComponents]
  | prim :: rest, st => by
      rcases gatherComponentVisibility_cases f p st prim with ⟨_, heq⟩ | ⟨_, heq⟩
      · have ih := gatherLevelComponents_dirty f p rest
          ⟨st.NextVisibilityId + 1, if p then true else st.bMarkLevelDirty⟩
        rw [gatherLevelComponents_cons, heq]
        rw [ih]
        cases p <;> simp
      · have ih := gatherLevelComponents_dirty f p rest st
        rw [gatherLevelComponents_cons, heq]
        rw [ih]
        simp

/-- Claim C8: during gather, a component receives a fresh visibility id if
and only if it is registered (and precomputed lighting is not suppressed),
its static lighting query produced at least one mesh, and its mobility is
static; the assigned ids are the dense increasing interval starting at the
incoming counter value, hence monotonically increasing and unique within the
build; and the level is marked dirty exactly when such an id was assigned and
the world precomputes visibility. -/
theorem C8_visibility_id_assignment (bForceNoPrecomputedLighting bPrecomputeVisibility : Bool)
    (v0 : Nat) (prims : List UPrimitiveComponent) :
    (∀ pr ∈ (gatherLevelComponents bForceNoPrecomputedLighting bPrecomputeVisibility
        ⟨v0, false⟩ prims).2,
      ((pr.2.isSome = true) ↔
        (pr.1.bRegistered = true ∧ bForceNoPrecomputedLighting = false ∧
          0 < pr.1.LightingInfoMeshCount ∧ pr.1.Mobility = EComponentMobility.Static)) ∧
      (∀ v, pr.2 = some v → pr.1.VisibilityId = Int.ofNat v)) ∧
    ((gatherLevelComponents bForceNoPrecomputedLighting bPrecomputeVisibility
        ⟨v0, false⟩ prims).2.filterMap Prod.snd
      = List.range' v0 (((gatherLevelComponents bForceNoPrecomputedLighting
          bPrecomputeVisibility ⟨v0, false⟩ prims).2.filterMap Prod.snd).length)) ∧
    ((gatherLevelComponents bForceNoPrecomputedLighting bPrecomputeVisibility
        ⟨v0, false⟩ prims).2.filterMap Prod.snd).Pairwise (· < ·) ∧
    (((gatherLevelComponents bForceNoPrecomputedLighting bPrecomputeVisibility
        ⟨v0, false⟩ prims).1.bMarkLevelDirty = true) ↔
      (bPrecomputeVisibility = true ∧
        ∃ pr ∈ (gatherLevelComponents bForceNoPrecomputedLighting bPrecomputeVisibility
          ⟨v0, false⟩ prims).2, pr.2.isSome = true)) := by
  refine ⟨gatherLevelComponents_results _ _ prims ⟨v0, false⟩, ?_, ?_, ?_⟩
  · exact (gatherLevelComponents_trace _ _ prims ⟨v0, false⟩).1
  · rw [(gatherLevelComponents_trace _ _ prims ⟨v0, false⟩).1]
    exact List.pairwise_lt_range' v0 _
  · rw [gatherLevelComponents_dirty]
    simp

/-- Witness for C8 at a concrete component list exercising every branch:
an eligible static component, a movable one, an unregistered one, one whose
query yields no meshes, and a second eligible one. -/
theorem C8_visibility_id_assignment_witness :
    (gatherLevelComponents false true ⟨0, false⟩ samplePrimComponents).2.filterMap Prod.snd
      = [0, 1] ∧
    (gatherLevelComponents false true ⟨0, false⟩ samplePrimComponents).1.bMarkLevelDirty
      = true := by
  have h := C8_visibility_id_assignment false true 0 samplePrimComponents
  refine ⟨?_, ?_⟩
  · rw [h.2.1]
    rfl
  · rw [h.2.2.2]
    refine ⟨rfl, ?_⟩
    decide

/-- The precedence relation induced by FCompareNumTexels, in arithmetic form:
x may precede y exactly when the texel count of y does not exceed that of x. -/
theorem sortHelperPrecedes_iff (x y : FStaticLightingMappingSortHelper) :
    sortHelperPrecedes x y ↔ y.NumTexels ≤ x.NumTexels := by
  simp [sortHelperPrecedes, FCompareNumTexels]

/-- Inserting an element never moves it past an element of equal texel count,
so filtering any fixed texel count commutes with the insertion. -/
theorem filter_orderedInsert_sortHelper (n : Nat) (x : FStaticLightingMappingSortHelper) :
    ∀ l : List FStaticLightingMappingSortHelper,
      (List.orderedInsert sortHelperPrecedes x l).filter (fun h => h.NumTexels == n)
        = (x :: l).filter (fun h => h.NumTexels == n)
  | [] => rfl
  | y :: ys => by
      by_cases hr : sortHelperPrecedes x y
      · simp only [List.orderedInsert, if_pos hr]
      · have ih := filter_orderedInsert_sortHelper n x ys
        simp only [List.orderedInsert, if_neg hr]
        by_cases hx : x.NumTexels = n <;> by_cases hy : y.NumTexels = n
        · exact absurd ((sortHelperPrecedes_iff x y).mpr (hy.trans hx.symm).le) hr
        · simp [List.filter_cons, hx, hy, ih]
        · simp [List.filter_cons, hx, hy, ih]
        · simp [List.filter_cons, hx, hy, ih]

/-- Filtering any fixed texel count commutes with the whole sort: equal texel
elements keep their original relative order. -/
theorem filter_sortMappings (n : Nat) :
    ∀ l : List FStaticLightingMappingSortHelper,
      (sortMappingsByNumTexels l).filter (fun h => h.NumTexels == n)
        = l.filter (fun h => h.NumTexels == n)
  | [] => rfl
  | x :: xs => by
      have ih := filter_sortMappings n xs
      simp only [sortMappingsByNumTexels, List.insertionSort] at ih ⊢
      rw [filter_orderedInsert_sortHelper, List.filter_cons, List.filter_cons, ih]

/-- Claim C7: with sorting enabled the gathered mappings are reordered into
descending texel count order (the sorted list is a permutation of the input
and pairwise descending), and the sort is stable: for every texel count the
subsequence of elements carrying it is unchanged, so ties are broken by
original gather order. -/
theorem C7_sort_descending_stable (l : List FStaticLightingMappingSortHelper) :
    (sortMappingsByNumTexels l).Perm l ∧
    (sortMappingsByNumTexels l).Pairwise (fun a b => b.NumTexels ≤ a.NumTexels) ∧
    ∀ n : Nat, (sortMappingsByNumTexels l).filter (fun h => h.NumTexels == n)
        = l.filter (fun h => h.NumTexels == n) := by
  refine ⟨List.perm_insertionSort sortHelperPrecedes l, ?_, fun n => filter_sortMappings n l⟩
  have hs := List.sorted_insertionSort sortHelperPrecedes l
  exact List.Pairwise.imp (fun h => (sortHelperPrecedes_iff _ _).mp h) hs

/-- Witness for C7 at a concrete helper list with a tie on texel count 16. -/
theorem C7_sort_descending_stable_witness :
    (sortMappingsByNumTexels sampleSortHelpers).Perm sampleSortHelpers ∧
    (sortMappingsByNumTexels sampleSortHelpers).Pairwise
      (fun a b => b.NumTexels ≤ a.NumTexels) ∧
    ∀ n : Nat, (sortMappingsByNumTexels sampleSortHelpers).filter (fun h => h.NumTexels == n)
        = sampleSortHelpers.filter (fun h => h.NumTexels == n) :=
  C7_sort_descending_stable sampleSortHelpers

/-- The dense GUID prefix grows by the GUID carrying the old counter value. -/
theorem detGuidRange_succ (k : Nat) :
    detGuidRange (k + 1) = detGuidRange k ++ [⟨0, 0, 0, k⟩] := by
  simp [detGuidRange, List.range_succ]

/-- Counting flagged mappings distributes over append. -/
theorem countProcessMappings_append (l1 l2 : List FStaticLightingMapping) :
    countProcessMappings (l1 ++ l2) = countProcessMappings l1 + countProcessMappings l2 := by
  simp [countProcessMappings, List.countP_append]

/-- Unfolding of one mesh loop iteration when a deterministic GUID is
assigned (unsorted path, building lighting for the actor). -/
theorem addMeshStep_eq_pos (bSort b : Bool) (vid : Int) (st : GatherState)
    (mesh : FStaticLightingMesh) (hc : (!bSort && b) = true) :
    addMeshStep bSort b vid st mesh =
      { st with
          Meshes := st.Meshes ++ [{ mesh with
            VisibilityIds := mesh.VisibilityIds ++ [vid],
            Guid := ⟨0, 0, 0, st.DeterministicIndex⟩ }],
          DeterministicIndex := st.DeterministicIndex + 1,
          AssignedGuids := st.AssignedGuids ++ [⟨0, 0, 0, st.DeterministicIndex⟩] } := by
  unfold addMeshStep assignDeterministicGuid
  rw [if_pos hc]

/-- Unfolding of one mesh loop iteration when no GUID is assigned. -/
theorem addMeshStep_eq_neg (bSort b : Bool) (vid : Int) (st : GatherState)
    (mesh : FStaticLightingMesh) (hc : (!bSort && b) = false) :
    addMeshStep bSort b vid st mesh =
      { st with
          Meshes := st.Meshes ++ [{ mesh with
            VisibilityIds := mesh.VisibilityIds ++ [vid] }] } := by
  unfold addMeshStep
  rw [if_neg (by simp [hc])]

/-- Effect of one mesh loop iteration on the system collections. -/
theorem addMeshStep_spec (bSort b : Bool) (vid : Int) (st : GatherState)
    (mesh : FStaticLightingMesh) :
    (addMeshStep bSort b vid st mesh).Mappings = st.Mappings ∧
    (addMeshStep bSort b vid st mesh).UnSortedMappings = st.UnSortedMappings ∧
    (addMeshStep bSort b vid st mesh).Meshes.length = st.Meshes.length + 1 ∧
    (addMeshStep bSort b vid st mesh).DeterministicIndex
        = st.DeterministicIndex + (if (!bSort && b) = true then 1 else 0) ∧
    (st.AssignedGuids = detGuidRange st.DeterministicIndex →
      (addMeshStep bSort b vid st mesh).AssignedGuids
        = detGuidRange ((addMeshStep bSort b vid st mesh).DeterministicIndex)) := by
  by_cases hc : (!bSort && b) = true
  · rw [addMeshStep_eq_pos bSort b vid st mesh hc]
    refine ⟨rfl, rfl, by simp, by simp [hc], ?_⟩
    intro h
    show st.AssignedGuids ++ [⟨0, 0, 0, st.DeterministicIndex⟩]
        = detGuidRange (st.DeterministicIndex + 1)
    rw [detGuidRange_succ, h]
  · have hcf : (!bSort && b) = false := by
      revert hc
      cases (!bSort && b) <;> simp
    rw [addMeshStep_eq_neg bSort b vid st mesh hcf]
    exact ⟨rfl, rfl, by simp, by simp [hcf], fun h => h⟩

/-- Effect of the whole mesh loop of AddPrimitiveStaticLightingInfo. -/
theorem foldl_addMeshStep_spec (bSort b : Bool) (vid : Int) :
    ∀ (ms : List FStaticLightingMesh) (st : GatherState),
      ((ms.foldl (addMeshStep bSort b vid) st).Mappings = st.Mappings) ∧
      ((ms.foldl (addMeshStep bSort b vid) st).UnSortedMappings = st.UnSortedMappings) ∧
      ((ms.foldl (addMeshStep bSort b vid) st).Meshes.length
          = st.Meshes.length + ms.length) ∧
      ((ms.foldl (addMeshStep bSort b vid) st).DeterministicIndex
          = st.DeterministicIndex + (if (!bSort && b) = true then ms.length else 0)) ∧
      (st.AssignedGuids = detGuidRange st.DeterministicIndex →
        (ms.foldl (addMeshStep bSort b vid) st).AssignedGuids
          = detGuidRange ((ms.foldl (addMeshStep bSort b vid) st).DeterministicIndex))
  | [], st => by
      refine ⟨rfl, rfl, by simp, by simp, fun h => h⟩
  | mesh :: ms, st => by
      have hstep := addMeshStep_spec bSort b vid st mesh
      have ih := foldl_addMeshStep_spec bSort b vid ms (addMeshStep bSort b vid st mesh)
      simp only [List.foldl_cons]
      refine ⟨ih.1.trans hstep.1, ih.2.1.trans hstep.2.1, ?_, ?_, ?_⟩
      · rw [ih.2.2.1, hstep.2.2.1, List.length_cons]
        omega
      · rw [ih.2.2.2.1, hstep.2.2.2.1, List.length_cons]
        by_cases hc : (!bSort && b) = true
        · simp only [hc, if_true]
          omega
        · simp only [hc]
          simp
      · intro h
        exact ih.2.2.2.2 (hstep.2.2.2.2 h)

/-- Unfolding of one mapping loop iteration on the sorted path. -/
theorem addMappingStep_eq_sorted (b : Bool) (st : GatherState)
    (mp : FStaticLightingMapping) :
    addMappingStep true b st mp =
      { st with UnSortedMappings := st.UnSortedMappings ++
          [⟨if b then { mp with bProcessMapping := true } else mp, mp.NumTexels⟩] } := by
  unfold addMappingStep
  cases b <;> rfl

/-- Unfolding of one mapping loop iteration on the unsorted path. -/
theorem addMappingStep_eq_unsorted (b : Bool) (st : GatherState)
    (mp : FStaticLightingMapping) :
    addMappingStep false b st mp =
      { st with Mappings := st.Mappings ++
          [if b then { mp with bProcessMapping := true } else mp] } := by
  unfold addMappingStep
  cases b <;> rfl

/-- Effect of one mapping loop iteration on the unsorted path. -/
theorem addMappingStep_unsorted_spec (b : Bool) (st : GatherState)
    (mp : FStaticLightingMapping) :
    (addMappingStep false b st mp).Meshes = st.Meshes ∧
    (addMappingStep false b st mp).UnSortedMappings = st.UnSortedMappings ∧
    (addMappingStep false b st mp).DeterministicIndex = st.DeterministicIndex ∧
    (addMappingStep false b st mp).AssignedGuids = st.AssignedGuids ∧
    (addMappingStep false b st mp).Mappings.length = st.Mappings.length + 1 ∧
    countProcessMappings (addMappingStep false b st mp).Mappings
        = countProcessMappings st.Mappings
          + (if b = true then 1 else (if mp.bProcessMapping = true then 1 else 0)) := by
  rw [addMappingStep_eq_unsorted]
  refine ⟨rfl, rfl, rfl, rfl, by simp, ?_⟩
  show countProcessMappings (st.Mappings
      ++ [if b = true then { mp with bProcessMapping := true } else mp]) = _
  rw [countProcessMappings_append]
  cases b
  · cases hm : mp.bProcessMapping <;> simp [countProcessMappings, hm]
  · simp [countProcessMappings]

/-- Effect of the whole mapping loop on the unsorted path. -/
theorem foldl_addMappingStep_unsorted (b : Bool) :
    ∀ (mps : List FStaticLightingMapping) (st : GatherState),
      ((mps.foldl (addMappingStep false b) st).Meshes = st.Meshes) ∧
      ((mps.foldl (addMappingStep false b) st).UnSortedMappings = st.UnSortedMappings) ∧
      ((mps.foldl (addMappingStep false b) st).DeterministicIndex
          = st.DeterministicIndex) ∧
      ((mps.foldl (addMappingStep false b) st).AssignedGuids = st.AssignedGuids) ∧
      ((mps.foldl (addMappingStep false b) st).Mappings.length
          = st.Mappings.length + mps.length) ∧
      (countProcessMappings (mps.foldl (addMappingStep false b) st).Mappings
          = countProcessMappings st.Mappings
            + (if b = true then mps.length else countProcessMappings mps))
  | [], st => by
      refine ⟨rfl, rfl, rfl, rfl, by simp, ?_⟩
      cases b <;> simp [countProcessMappings]
  | mp :: mps, st => by
      have hstep := addMappingStep_unsorted_spec b st mp
      have ih := foldl_addMappingStep_unsorted b mps (addMappingStep false b st mp)
      simp only [List.foldl_cons]
      refine ⟨ih.1.trans hstep.1, ih.2.1.trans hstep.2.1,
        ih.2.2.1.trans hstep.2.2.1, ih.2.2.2.1.trans hstep.2.2.2.1, ?_, ?_⟩
      · rw [ih.2.2.2.2.1, hstep.2.2.2.2.1, List.length_cons]
        omega
      · rw [ih.2.2.2.2.2, hstep.2.2.2.2.2]
        cases b
        · simp only [Bool.false_eq_true, if_false]
          show _ = countProcessMappings st.Mappings + countProcessMappings (mp :: mps)
          have : countProcessMappings (mp :: mps)
              = (if mp.bProcessMapping = true then 1 else 0) + countProcessMappings mps := by
            simp [countProcessMappings, List.countP_cons]
            omega
          rw [this]
          omega
        · simp only [if_true, List.length_cons]
          omega

/-- Effect of one mapping loop iteration on the sorted path. -/
theorem addMappingStep_sorted_spec (b : Bool) (st : GatherState)
    (mp : FStaticLightingMapping) :
    (addMappingStep true b st mp).Meshes = st.Meshes ∧
    (addMappingStep true b st mp).Mappings = st.Mappings ∧
    (addMappingStep true b st mp).DeterministicIndex = st.DeterministicIndex ∧
    (addMappingStep true b st mp).AssignedGuids = st.AssignedGuids ∧
    (addMappingStep true b st mp).UnSortedMappings.length
        = st.UnSortedMappings.length + 1 ∧
    (∀ h ∈ (addMappingStep true b st mp).UnSortedMappings,
        h ∈ st.UnSortedMappings ∨
          h.Mapping = (if b = true then { mp with bProcessMapping := true } else mp)) := by
  rw [addMappingStep_eq_sorted]
  refine ⟨rfl, rfl, rfl, rfl, by simp, ?_⟩
  intro h hmem
  rcases List.mem_append.mp hmem with hold | hnew
  · exact Or.inl hold
  · right
    rcases List.mem_singleton.mp hnew with rfl
    rfl

/-- Effect of the whole mapping loop on the sorted path. -/
theorem foldl_addMappingStep_sorted (b : Bool) :
    ∀ (mps : List FStaticLightingMapping) (st : GatherState),
      ((mps.foldl (addMappingStep true b) st).Meshes = st.Meshes) ∧
      ((mps.foldl (addMappingStep true b) st).Mappings = st.Mappings) ∧
      ((mps.foldl (addMappingStep true b) st).DeterministicIndex
          = st.DeterministicIndex) ∧
      ((mps.foldl (addMappingStep true b) st).AssignedGuids = st.AssignedGuids) ∧
      ((mps.foldl (addMappingStep true b) st).UnSortedMappings.length
          = st.UnSortedMappings.length + mps.length) ∧
      (∀ h ∈ (mps.foldl (addMappingStep true b) st).UnSortedMappings,
          h ∈ st.UnSortedMappings ∨
            ∃ mp ∈ mps, h.Mapping = (if b = true then { mp with bProcessMapping := true } else mp))
  | [], st => by
      refine ⟨rfl, rfl, rfl, rfl, by simp, ?_⟩
      intro h hmem
      exact Or.inl hmem
  | mp :: mps, st => by
      have hstep := addMappingStep_sorted_spec b st mp
      have ih := foldl_addMappingStep_sorted b mps (addMappingStep true b st mp)
      simp only [List.foldl_cons]
      refine ⟨ih.1.trans hstep.1, ih.2.1.trans hstep.2.1,
        ih.2.2.1.trans hstep.2.2.1, ih.2.2.2.1.trans hstep.2.2.2.1, ?_, ?_⟩
      · rw [ih.2.2.2.2.1, hstep.2.2.2.2.1, List.length_cons]
        omega
      · intro h hmem
        rcases ih.2.2.2.2.2 h hmem with hin | ⟨mp2, hmp2, heq⟩
        · rcases hstep.2.2.2.2.2 h hin with hold | hnew
          · exact Or.inl hold
          · exact Or.inr ⟨mp, List.mem_cons_self mp mps, hnew⟩
        · exact Or.inr ⟨mp2, List.mem_cons_of_mem mp hmp2, heq⟩

/-- The selection scoped BSP overload coincides with the whole level overload
invoked with building enabled, in both sort modes. -/
theorem addBSPNodeGroupSelected_eq (bSort : Bool)
    (surface : FBSPSurfaceStaticLighting) (st : GatherState) :
    addBSPNodeGroupSelected bSort surface st = addBSPNodeGroup bSort true surface st := by
  cases bSort <;> rfl

/-- Effect of one BSP node group on the unsorted path. -/
theorem addBSPNodeGroup_unsorted_spec (flag : Bool)
    (surface : FBSPSurfaceStaticLighting) (st : GatherState) :
    (addBSPNodeGroup false flag surface st).UnSortedMappings = st.UnSortedMappings ∧
    (addBSPNodeGroup false flag surface st).Meshes.length = st.Meshes.length + 1 ∧
    (addBSPNodeGroup false flag surface st).Mappings.length = st.Mappings.length + 1 ∧
    countProcessMappings (addBSPNodeGroup false flag surface st).Mappings
        = countProcessMappings st.Mappings + (if flag = true then 1 else 0) ∧
    (addBSPNodeGroup false flag surface st).DeterministicIndex
        = st.DeterministicIndex + (if flag = true then 1 else 0) ∧
    (st.AssignedGuids = detGuidRange st.DeterministicIndex →
      (addBSPNodeGroup false flag surface st).AssignedGuids
        = detGuidRange ((addBSPNodeGroup false flag surface st).DeterministicIndex)) := by
  cases flag
  · refine ⟨rfl, by simp [addBSPNodeGroup], ?_, ?_, rfl, fun h => h⟩
    · simp [addBSPNodeGroup]
    · show countProcessMappings (st.Mappings ++ [_]) = _
      rw [countProcessMappings_append]
      simp [countProcessMappings]
  · refine ⟨rfl, by simp [addBSPNodeGroup, assignDeterministicGuid], ?_, ?_, rfl, ?_⟩
    · simp [addBSPNodeGroup, assignDeterministicGuid]
    · show countProcessMappings (st.Mappings ++ [_]) = _
      rw [countProcessMappings_append]
      simp [countProcessMappings]
    · intro h
      show st.AssignedGuids ++ [⟨0, 0, 0, st.DeterministicIndex⟩]
          = detGuidRange (st.DeterministicIndex + 1)
      rw [detGuidRange_succ, h]

/-- Effect of one BSP node group on the sorted path. -/
theorem addBSPNodeGroup_sorted_spec (flag : Bool)
    (surface : FBSPSurfaceStaticLighting) (st : GatherState) :
    (addBSPNodeGroup true flag surface st).Meshes.length = st.Meshes.length + 1 ∧
    (addBSPNodeGroup true flag surface st).Mappings = st.Mappings ∧
    (addBSPNodeGroup true flag surface st).DeterministicIndex = st.DeterministicIndex ∧
    (addBSPNodeGroup true flag surface st).AssignedGuids = st.AssignedGuids ∧
    (addBSPNodeGroup true flag surface st).UnSortedMappings.length
        = st.UnSortedMappings.length + 1 ∧
    (∀ h ∈ (addBSPNodeGroup true flag surface st).UnSortedMappings,
        h ∈ st.UnSortedMappings ∨ h.Mapping.Mesh.isSome = true) := by
  refine ⟨by simp [addBSPNodeGroup], rfl, rfl, rfl, by simp [addBSPNodeGroup], ?_⟩
  intro h hmem
  rcases List.mem_append.mp hmem with hold | hnew
  · exact Or.inl hold
  · right
    rcases List.mem_singleton.mp hnew with rfl
    rfl

/-- One gather contribution on the unsorted path preserves the density
invariant, provided primitive mappings arrive freshly constructed. -/
theorem runGatherStep_unsorted_inv (step : GatherStep) (st st' : GatherState)
    (hfresh : freshStep step = true) (hst : UnsortedGatherInv st)
    (hrun : runGatherStep false st step = some st') : UnsortedGatherInv st' := by
  obtain ⟨hA, hC, hU⟩ := hst
  cases step with
  | prim info b =>
      simp only [runGatherStep, AddPrimitiveStaticLightingInfo] at hrun
      split at hrun
      case isFalse => cases hrun
      case isTrue hlen =>
        cases hrun
        have hm := foldl_addMeshStep_spec false b info.VisibilityId info.Meshes st
        have hp := foldl_addMappingStep_unsorted b info.Mappings
          (info.Meshes.foldl (addMeshStep false b info.VisibilityId) st)
        have hflag0 : countProcessMappings info.Mappings = 0 := by
          simp only [freshStep, List.all_eq_true] at hfresh
          simp only [countProcessMappings]
          rw [List.countP_eq_zero]
          intro mp hmp
          have := hfresh mp hmp
          simp only [freshMapping, Bool.and_eq_true, Bool.not_eq_true'] at this
          simp [this.1]
        refine ⟨?_, ?_, ?_⟩
        · rw [hp.2.2.2.1, hp.2.2.1]
          exact hm.2.2.2.2 hA
        · rw [hp.2.2.2.2.2, hm.1, hp.2.2.1, hm.2.2.2.1, hC, hflag0]
          cases b <;> simp [hlen]
        · rw [hp.2.1, hm.2.1, hU]
  | bspWholeLevel surface flag =>
      simp only [runGatherStep] at hrun
      cases hrun
      have hb := addBSPNodeGroup_unsorted_spec flag surface st
      refine ⟨hb.2.2.2.2.2 hA, ?_, hb.1.trans hU⟩
      rw [hb.2.2.2.1, hb.2.2.2.2.1, hC]
  | bspSelected surface =>
      simp only [runGatherStep, addBSPNodeGroupSelected_eq] at hrun
      cases hrun
      have hb := addBSPNodeGroup_unsorted_spec true surface st
      refine ⟨hb.2.2.2.2.2 hA, ?_, hb.1.trans hU⟩
      rw [hb.2.2.2.1, hb.2.2.2.2.1, hC]

/-- One gather contribution on the sorted path preserves the sorted phase
invariant, provided primitive mappings arrive freshly constructed. -/
theorem runGatherStep_sorted_inv (step : GatherStep) (st st' : GatherState)
    (hfresh : freshStep step = true) (hst : SortedGatherInv st)
    (hrun : runGatherStep true st step = some st') : SortedGatherInv st' := by
  obtain ⟨hA, hD, hM, hH⟩ := hst
  cases step with
  | prim info b =>
      simp only [runGatherStep, AddPrimitiveStaticLightingInfo] at hrun
      split at hrun
      case isFalse => cases hrun
      case isTrue hlen =>
        cases hrun
        have hm := foldl_addMeshStep_spec true b info.VisibilityId info.Meshes st
        have hp := foldl_addMappingStep_sorted b info.Mappings
          (info.Meshes.foldl (addMeshStep true b info.VisibilityId) st)
        have hDet : (info.Meshes.foldl (addMeshStep true b info.VisibilityId) st).DeterministicIndex = 0 := by
          rw [hm.2.2.2.1, hD]
          simp
        have hAsg : (info.Meshes.foldl (addMeshStep true b info.VisibilityId) st).AssignedGuids = [] := by
          have := hm.2.2.2.2 (by rw [hA, hD]; rfl)
          rw [this, hDet]
          rfl
        refine ⟨?_, ?_, ?_, ?_⟩
        · rw [hp.2.2.2.1, hAsg]
        · rw [hp.2.2.1, hDet]
        · rw [hp.2.1, hm.1, hM]
        · intro h hmem
          rcases hp.2.2.2.2.2 h hmem with hin | ⟨mp, hmp, heq⟩
          · rw [hm.2.1] at hin
            exact hH h hin
          · intro _
            simp only [freshStep, List.all_eq_true] at hfresh
            have hfr := hfresh mp hmp
            simp only [freshMapping, Bool.and_eq_true] at hfr
            rw [heq]
            cases b <;> simpa using hfr.2
  | bspWholeLevel surface flag =>
      simp only [runGatherStep] at hrun
      cases hrun
      have hb := addBSPNodeGroup_sorted_spec flag surface st
      refine ⟨hb.2.2.2.1.trans hA, hb.2.2.1.trans hD, hb.2.1.trans hM, ?_⟩
      intro h hmem
      rcases hb.2.2.2.2.2 h hmem with hin | hsome
      · exact hH h hin
      · intro _
        exact hsome
  | bspSelected surface =>
      simp only [runGatherStep, addBSPNodeGroupSelected_eq] at hrun
      cases hrun
      have hb := addBSPNodeGroup_sorted_spec true surface st
      refine ⟨hb.2.2.2.1.trans hA, hb.2.2.1.trans hD, hb.2.1.trans hM, ?_⟩
      intro h hmem
      rcases hb.2.2.2.2.2 h hmem with hin | hsome
      · exact hH h hin
      · intro _
        exact hsome

/-- One gather contribution preserves the one mesh per mapping balance, in
either sort mode. -/
theorem runGatherStep_len_inv (bSort : Bool) (step : GatherStep) (st st' : GatherState)
    (hst : MeshMappingLenInv st) (hrun : runGatherStep bSort st step = some st') :
    MeshMappingLenInv st' := by
  unfold MeshMappingLenInv at hst ⊢
  cases step with
  | prim info b =>
      simp only [runGatherStep, AddPrimitiveStaticLightingInfo] at hrun
      split at hrun
      case isFalse => cases hrun
      case isTrue hlen =>
        cases hrun
        have hm := foldl_addMeshStep_spec bSort b info.VisibilityId info.Meshes st
        cases bSort
        · have hp := foldl_addMappingStep_unsorted b info.Mappings
            (info.Meshes.foldl (addMeshStep false b info.VisibilityId) st)
          rw [hp.1, hp.2.1, hp.2.2.2.2.1, hm.1, hm.2.1, hm.2.2.1]
          omega
        · have hp := foldl_addMappingStep_sorted b info.Mappings
            (info.Meshes.foldl (addMeshStep true b info.VisibilityId) st)
          rw [hp.1, hp.2.1, hp.2.2.2.2.1, hm.1, hm.2.1, hm.2.2.1]
          omega
  | bspWholeLevel surface flag =>
      simp only [runGatherStep] at hrun
      cases hrun
      cases bSort
      · have hb := addBSPNodeGroup_unsorted_spec flag surface st
        rw [hb.1, hb.2.1, hb.2.2.1]
        omega
      · have hb := addBSPNodeGroup_sorted_spec flag surface st
        rw [hb.1, hb.2.1, hb.2.2.2.2.1]
        omega
  | bspSelected surface =>
      simp only [runGatherStep, addBSPNodeGroupSelected_eq] at hrun
      cases hrun
      cases bSort
      · have hb := addBSPNodeGroup_unsorted_spec true surface st
        rw [hb.1, hb.2.1, hb.2.2.1]
        omega
      · have hb := addBSPNodeGroup_sorted_spec true surface st
        rw [hb.1, hb.2.1, hb.2.2.2.2.1]
        omega

/-- A property preserved by every accepted contribution is preserved by the
whole gather run. -/
theorem runGatherSteps_preserve (bSort : Bool) (P : GatherState → Prop)
    (hstep : ∀ step st st', freshStep step = true → P st →
      runGatherStep bSort st step = some st' → P st') :
    ∀ (steps : List GatherStep) (st st' : GatherState),
      (∀ s ∈ steps, freshStep s = true) → P st →
      runGatherSteps bSort steps st = some st' → P st'
  | [], st, st' => by
      intro _ hP hrun
      simp only [runGatherSteps, List.foldlM_nil] at hrun
      cases hrun
      exact hP
  | s :: ss, st, st' => by
      intro hfresh hP hrun
      rw [runGatherSteps, List.foldlM_cons] at hrun
      cases hone : runGatherStep bSort st s with
      | none =>
          rw [hone] at hrun
          cases hrun
      | some st1 =>
          rw [hone] at hrun
          simp only [Option.bind_eq_bind, Option.some_bind] at hrun
          exact runGatherSteps_preserve bSort P hstep ss st1 st'
            (fun x hx => hfresh x (List.mem_cons_of_mem s hx))
            (hstep s st st1 (hfresh s (List.mem_cons_self s ss)) hP hone) hrun

/-- Length effects of one post-sort walk iteration (no hypotheses). -/
theorem sortPathAssignStep_lengths (st : GatherState)
    (h : FStaticLightingMappingSortHelper) :
    (sortPathAssignStep st h).Meshes = st.Meshes ∧
    (sortPathAssignStep st h).UnSortedMappings = st.UnSortedMappings ∧
    (sortPathAssignStep st h).Mappings.length = st.Mappings.length + 1 := by
  unfold sortPathAssignStep
  by_cases hf : h.Mapping.bProcessMapping = true
  · rw [if_pos hf]
    cases hmm : h.Mapping.Mesh <;> simp [hmm, assignDeterministicGuid]
  · rw [if_neg hf]
    simp

/-- Counting and trace effects of one post-sort walk iteration, for a helper
whose flagged mapping carries a mesh. -/
theorem sortPathAssignStep_inv (st : GatherState)
    (h : FStaticLightingMappingSortHelper)
    (hmesh : h.Mapping.bProcessMapping = true → h.Mapping.Mesh.isSome = true) :
    (sortPathAssignStep st h).DeterministicIndex
        = st.DeterministicIndex + (if h.Mapping.bProcessMapping = true then 1 else 0) ∧
    countProcessMappings (sortPathAssignStep st h).Mappings
        = countProcessMappings st.Mappings
          + (if h.Mapping.bProcessMapping = true then 1 else 0) ∧
    (st.AssignedGuids = detGuidRange st.DeterministicIndex →
      (sortPathAssignStep st h).AssignedGuids
        = detGuidRange ((sortPathAssignStep st h).DeterministicIndex)) := by
  unfold sortPathAssignStep
  by_cases hf : h.Mapping.bProcessMapping = true
  · rw [if_pos hf]
    rcases hmm : h.Mapping.Mesh with _ | mesh
    · exact absurd (hmesh hf) (by simp [hmm])
    · simp only [hmm]
      refine ⟨by simp [assignDeterministicGuid, hf], ?_, ?_⟩
      · show countProcessMappings (st.Mappings ++ [_]) = _
        rw [countProcessMappings_append, if_pos hf]
        simp [countProcessMappings, hf]
      · intro hA
        show st.AssignedGuids ++ [⟨0, 0, 0, st.DeterministicIndex⟩]
            = detGuidRange (st.DeterministicIndex + 1)
        rw [detGuidRange_succ, hA]
  · rw [if_neg hf]
    refine ⟨by simp [hf], ?_, fun hA => hA⟩
    show countProcessMappings (st.Mappings ++ [h.Mapping]) = _
    rw [countProcessMappings_append, if_neg hf]
    have : countProcessMappings [h.Mapping] = 0 := by
      simp only [countProcessMappings, List.countP_cons, List.countP_nil]
      have : h.Mapping.bProcessMapping = false := by
        revert hf
        cases h.Mapping.bProcessMapping <;> simp
      simp [this]
    omega

/-- Length effects of the whole post-sort walk. -/
theorem foldl_sortPathAssignStep_lengths :
    ∀ (hs : List FStaticLightingMappingSortHelper) (st : GatherState),
      (hs.foldl sortPathAssignStep st).Meshes = st.Meshes ∧
      (hs.foldl sortPathAssignStep st).UnSortedMappings = st.UnSortedMappings ∧
      (hs.foldl sortPathAssignStep st).Mappings.length
          = st.Mappings.length + hs.length
  | [], st => ⟨rfl, rfl, by simp⟩
  | h :: hs, st => by
      have hstep := sortPathAssignStep_lengths st h
      have ih := foldl_sortPathAssignStep_lengths hs (sortPathAssignStep st h)
      simp only [List.foldl_cons]
      refine ⟨ih.1.trans hstep.1, ih.2.1.trans hstep.2.1, ?_⟩
      rw [ih.2.2, hstep.2.2, List.length_cons]
      omega

/-- Density invariant of the whole post-sort walk: starting from a state
whose trace matches its counter and whose flagged count matches its counter,
both properties still hold after the walk. -/
theorem foldl_sortPathAssignStep_inv :
    ∀ (hs : List FStaticLightingMappingSortHelper) (st : GatherState),
      (∀ h ∈ hs, h.Mapping.bProcessMapping = true → h.Mapping.Mesh.isSome = true) →
      st.AssignedGuids = detGuidRange st.DeterministicIndex →
      countProcessMappings st.Mappings = st.DeterministicIndex →
      ((hs.foldl sortPathAssignStep st).AssignedGuids
          = detGuidRange ((hs.foldl sortPathAssignStep st).DeterministicIndex) ∧
        countProcessMappings (hs.foldl sortPathAssignStep st).Mappings
          = (hs.foldl sortPathAssignStep st).DeterministicIndex)
  | [], st => fun _ hA hC => ⟨hA, hC⟩
  | h :: hs, st => by
      intro hmesh hA hC
      have hstep := sortPathAssignStep_inv st h
        (hmesh h (List.mem_cons_self h hs))
      simp only [List.foldl_cons]
      exact foldl_sortPathAssignStep_inv hs (sortPathAssignStep st h)
        (fun x hx => hmesh x (List.mem_cons_of_mem h hx))
        (hstep.2.2 hA)
        (by rw [hstep.2.1, hstep.1, hC])

/-- The sort block keeps the trace dense: after sorting and assigning, the
trace is the dense GUID prefix of the counter and the flagged mapping count
equals the counter. -/
theorem SortAndAssignDeterministicIds_inv (st : GatherState)
    (hH : ∀ h ∈ st.UnSortedMappings,
        h.Mapping.bProcessMapping = true → h.Mapping.Mesh.isSome = true)
    (hA : st.AssignedGuids = detGuidRange st.DeterministicIndex)
    (hC : countProcessMappings st.Mappings = st.DeterministicIndex) :
    (SortAndAssignDeterministicIds st).AssignedGuids
        = detGuidRange ((SortAndAssignDeterministicIds st).DeterministicIndex) ∧
    countProcessMappings (SortAndAssignDeterministicIds st).Mappings
        = (SortAndAssignDeterministicIds st).DeterministicIndex := by
  unfold SortAndAssignDeterministicIds
  apply foldl_sortPathAssignStep_inv
  · intro h hm
    exact hH h ((List.mem_insertionSort _).mp hm)
  · exact hA
  · exact hC

/-- The sort block moves every stashed mapping into Mappings: Meshes is
untouched, UnSortedMappings would be emptied, and Mappings grows by the
number of stashed helpers. -/
theorem SortAndAssignDeterministicIds_lengths (st : GatherState) :
    (SortAndAssignDeterministicIds st).Meshes = st.Meshes ∧
    (SortAndAssignDeterministicIds st).UnSortedMappings = [] ∧
    (SortAndAssignDeterministicIds st).Mappings.length
        = st.Mappings.length + st.UnSortedMappings.length := by
  unfold SortAndAssignDeterministicIds
  have hl := foldl_sortPathAssignStep_lengths
    (sortMappingsByNumTexels st.UnSortedMappings)
    { st with UnSortedMappings := [] }
  refine ⟨hl.1, hl.2.1, ?_⟩
  rw [hl.2.2]
  show st.Mappings.length + (sortMappingsByNumTexels st.UnSortedMappings).length = _
  rw [sortMappingsByNumTexels, List.length_insertionSort]

/-- A property preserved unconditionally by every accepted contribution is
preserved by the whole gather run. -/
theorem runGatherSteps_preserve_unconditional (bSort : Bool) (P : GatherState → Prop)
    (hstep : ∀ step st st', P st → runGatherStep bSort st step = some st' → P st') :
    ∀ (steps : List GatherStep) (st st' : GatherState),
      P st → runGatherSteps bSort steps st = some st' → P st'
  | [], st, st' => by
      intro hP hrun
      simp only [runGatherSteps, List.foldlM_nil] at hrun
      cases hrun
      exact hP
  | s :: ss, st, st' => by
      intro hP hrun
      rw [runGatherSteps, List.foldlM_cons] at hrun
      cases hone : runGatherStep bSort st s with
      | none =>
          rw [hone] at hrun
          cases hrun
      | some st1 =>
          rw [hone] at hrun
          simp only [Option.bind_eq_bind, Option.some_bind] at hrun
          exact runGatherSteps_preserve_unconditional bSort P hstep ss st1 st'
            (hstep s st st1 hP hone) hrun

/-- On the unsorted path no contribution ever stashes a helper. -/
theorem runGatherStep_no_unsorted (step : GatherStep) (st st' : GatherState)
    (hU : st.UnSortedMappings = [])
    (hrun : runGatherStep false st step = some st') :
    st'.UnSortedMappings = [] := by
  cases step with
  | prim info b =>
      simp only [runGatherStep, AddPrimitiveStaticLightingInfo] at hrun
      split at hrun
      case isFalse => cases hrun
      case isTrue =>
        cases hrun
        have hm := foldl_addMeshStep_spec false b info.VisibilityId info.Meshes st
        have hp := foldl_addMappingStep_unsorted b info.Mappings
          (info.Meshes.foldl (addMeshStep false b info.VisibilityId) st)
        rw [hp.2.1, hm.2.1, hU]
  | bspWholeLevel surface flag =>
      simp only [runGatherStep] at hrun
      cases hrun
      exact (addBSPNodeGroup_unsorted_spec flag surface st).1.trans hU
  | bspSelected surface =>
      simp only [runGatherStep, addBSPNodeGroupSelected_eq] at hrun
      cases hrun
      exact (addBSPNodeGroup_unsorted_spec true surface st).1.trans hU

/-- Claim C1: for a build gathered from fresh contributions, the
deterministic GUIDs assigned (each of the form FGuid(0,0,0,D) with the other
components zero) are exactly FGuid(0,0,0,0) .. FGuid(0,0,0,k-1), where k is
the number of mappings flagged with bProcessMapping after the assignment
phase: densely from zero, no gaps, no repeats. The sort flag chooses between
the sorted path (assignment in the post-sort walk of BeginLightmassProcess)
and the unsorted gather paths (assignment inside AddPrimitiveStaticLightingInfo
and the BSP overloads); the claim holds on both. -/
theorem C1_deterministic_ids_dense (bSort : Bool) (steps : List GatherStep)
    (hfresh : ∀ s ∈ steps, freshStep s = true) :
    ∀ final ∈ (runGatherSteps bSort steps emptyGatherState).map
        (BeginLightmassAssignPhase bSort),
      final.AssignedGuids = detGuidRange (countProcessMappings final.Mappings) := by
  intro final hfin
  rw [Option.mem_def, Option.map_eq_some'] at hfin
  obtain ⟨stG, hrun, rfl⟩ := hfin
  cases bSort
  · have hinv := runGatherSteps_preserve false UnsortedGatherInv
      runGatherStep_unsorted_inv steps emptyGatherState stG hfresh
      ⟨rfl, rfl, rfl⟩ hrun
    obtain ⟨hA, hC, _⟩ := hinv
    show stG.AssignedGuids = detGuidRange (countProcessMappings stG.Mappings)
    rw [hA, hC]
  · have hinv := runGatherSteps_preserve true SortedGatherInv
      runGatherStep_sorted_inv steps emptyGatherState stG hfresh
      ⟨rfl, rfl, rfl, fun h hm => absurd hm (List.not_mem_nil h)⟩ hrun
    obtain ⟨hA, hD, hM, hH⟩ := hinv
    show (SortAndAssignDeterministicIds stG).AssignedGuids
        = detGuidRange (countProcessMappings (SortAndAssignDeterministicIds stG).Mappings)
    have hs := SortAndAssignDeterministicIds_inv stG hH
      (by rw [hA, hD]; rfl) (by rw [hM, hD]; rfl)
    rw [hs.1, hs.2]

/-- Witness for C1 at a concrete gather: one primitive with two meshes and
two mappings built for lighting, one whole level BSP group, one selection
scoped BSP group, and one primitive not built for lighting, on the sorted
path. -/
theorem C1_deterministic_ids_dense_witness :
    (∀ s ∈ sampleGatherSteps, freshStep s = true) ∧
    ∀ final ∈ (runGatherSteps true sampleGatherSteps emptyGatherState).map
        (BeginLightmassAssignPhase true),
      final.AssignedGuids = detGuidRange (countProcessMappings final.Mappings) :=
  ⟨by decide, C1_deterministic_ids_dense true sampleGatherSteps (by decide)⟩

/-- Claim C9: a primitive contribution is accepted (the check assertion of
AddPrimitiveStaticLightingInfo passes) exactly when its mesh count equals its
mapping count; consequently, after any gather run starting from the empty
system the total mesh count equals the total count of mappings (counting the
sorted path stash while it exists), on the unsorted path Meshes and Mappings
have equal length directly, and after the assignment phase of
BeginLightmassProcess the mesh and mapping lists have equal length in both
modes. The BSP overloads contribute exactly one mesh and one mapping per node
group, preserving the balance. -/
theorem C9_mesh_mapping_parity (bSort : Bool) (steps : List GatherStep)
    (info : FStaticLightingPrimitiveInfo) (b : Bool) (st0 : GatherState) :
    ((AddPrimitiveStaticLightingInfo bSort info b st0).isSome = true ↔
      info.Meshes.length = info.Mappings.length) ∧
    ∀ stG ∈ runGatherSteps bSort steps emptyGatherState,
      stG.Meshes.length = stG.Mappings.length + stG.UnSortedMappings.length ∧
      (bSort = false → stG.Meshes.length = stG.Mappings.length) ∧
      (BeginLightmassAssignPhase bSort stG).Meshes.length
          = (BeginLightmassAssignPhase bSort stG).Mappings.length := by
  constructor
  · unfold AddPrimitiveStaticLightingInfo
    split
    case isTrue hlen => exact iff_of_true rfl hlen
    case isFalse hlen => exact iff_of_false (by simp) hlen
  · intro stG hmem
    rw [Option.mem_def] at hmem
    have hinv := runGatherSteps_preserve_unconditional bSort MeshMappingLenInv
      (runGatherStep_len_inv bSort) steps emptyGatherState stG rfl hmem
    refine ⟨hinv, ?_, ?_⟩
    · intro hb
      subst hb
      have hU := runGatherSteps_preserve_unconditional false
        (fun st => st.UnSortedMappings = [])
        runGatherStep_no_unsorted steps emptyGatherState stG rfl hmem
      have := hinv
      unfold MeshMappingLenInv at this
      rw [hU] at this
      simpa using this
    · cases bSort
      · have hU := runGatherSteps_preserve_unconditional false
          (fun st => st.UnSortedMappings = [])
          runGatherStep_no_unsorted steps emptyGatherState stG rfl hmem
        show stG.Meshes.length = stG.Mappings.length
        have := hinv
        unfold MeshMappingLenInv at this
        rw [hU] at this
        simpa using this
      · have hl := SortAndAssignDeterministicIds_lengths stG
        show (SortAndAssignDeterministicIds stG).Meshes.length
            = (SortAndAssignDeterministicIds stG).Mappings.length
        rw [hl.1, hl.2.2]
        exact hinv

/-- Witness for C9 at a concrete accepted primitive contribution and a
concrete unsorted gather run. -/
theorem C9_mesh_mapping_parity_witness :
    ((AddPrimitiveStaticLightingInfo false samplePrimInfo true emptyGatherState).isSome = true ↔
      samplePrimInfo.Meshes.length = samplePrimInfo.Mappings.length) ∧
    ∀ stG ∈ runGatherSteps false sampleGatherSteps emptyGatherState,
      stG.Meshes.length = stG.Mappings.length + stG.UnSortedMappings.length ∧
      (false = false → stG.Meshes.length = stG.Mappings.length) ∧
      (BeginLightmassAssignPhase false stG).Meshes.length
          = (BeginLightmassAssignPhase false stG).Mappings.length :=
  C9_mesh_mapping_parity false sampleGatherSteps samplePrimInfo true emptyGatherState
